import Mathlib

/-!
Shallow embedding of the agentic-todolist frontend core: the
timeline-to-calendar preview/commit workflow, the task-flow preview/commit
workflow, client-side zod validation schemas, the HTTP fetcher wrappers,
the react-query mutation declarations, the provider/model/API-key gating,
and the session/auth mount effect.  Every definition is translated from the
TypeScript source under src/frontend (file names are given in doc comments).
-/

set_option maxRecDepth 4000

/-- Models the `CalendarEvent` wire type of
`src/frontend/src/shared/types/event.ts`: all dates are `YYYY-MM-DD` strings,
times are `HH:MM` strings or null, attendees is an array of email strings. -/
structure CalendarEvent where
  title : String
  description : String
  start_date : String
  end_date : String
  start_time : Option String
  end_time : Option String
  attendees : List String
  location : Option String
  all_day : Bool
  deriving DecidableEq, Repr

/-- Models the `GoogleTask` type of `src/frontend/src/shared/types/task.ts`
(the `status` union "needsAction" | "completed" is kept as a string, optional
fields as `Option`). -/
structure GoogleTask where
  task_id : String
  title : String
  notes : Option String
  status : String
  due : Option String
  completed : Option String
  priority : Option String
  parent : Option String
  deriving DecidableEq, Repr

/-- Character class `[A-Za-z0-9_'+\-.]` of the local part of the zod v4
default email regexp used by `z.email()` in `CreateEventsFromTimelineSchema`
(`src/frontend/src/shared/repositories/timeline/dto.ts`).  `Char.ofNat 39` is
the apostrophe character. -/
def isLocalChar (c : Char) : Bool :=
  c.isAlpha || c.isDigit || c == '_' || c == Char.ofNat 39 || c == '+' ||
    c == '-' || c == '.'

/-- Character class `[A-Za-z0-9_+-]` that the zod email regexp requires of the
last character of the local part (no trailing dot or apostrophe). -/
def isLocalEndChar (c : Char) : Bool :=
  c.isAlpha || c.isDigit || c == '_' || c == '+' || c == '-'

/-- The negative lookahead `(?!.*\.\.)` of the zod email regexp: no two
consecutive dots. -/
def noDoubleDot : List Char → Bool
  | [] => true
  | [_] => true
  | c :: d :: rest => !(c == '.' && d == '.') && noDoubleDot (d :: rest)

/-- Splits a character list at every occurrence of `sep`, mirroring
JavaScript / zod splitting of the email at `@` and the domain at `.`
(single-character separators only). -/
def splitOnChar (sep : Char) : List Char → List (List Char)
  | [] => [[]]
  | c :: rest =>
    match splitOnChar sep rest with
    | [] => if c == sep then [[], []] else [[c]]
    | h :: t => if c == sep then [] :: h :: t else (c :: h) :: t

/-- Local part of the zod email regexp:
`(?!\.)([A-Za-z0-9_'+\-.]*)[A-Za-z0-9_+-]` with no double dot. -/
def validLocalPart (l : List Char) : Bool :=
  match l with
  | [] => false
  | c :: _ =>
    !(c == '.') && l.all isLocalChar &&
      (match l.getLast? with
       | some d => isLocalEndChar d
       | none => false) &&
      noDoubleDot l

/-- Domain label `[A-Za-z0-9][A-Za-z0-9-]*` of the zod email regexp. -/
def validDomainLabel (l : List Char) : Bool :=
  match l with
  | [] => false
  | c :: rest =>
    (c.isAlpha || c.isDigit) && rest.all (fun d => d.isAlpha || d.isDigit || d == '-')

/-- Top-level-domain part `[A-Za-z]{2,}` of the zod email regexp. -/
def validTld (l : List Char) : Bool :=
  decide (2 ≤ l.length) && l.all Char.isAlpha

/-- Domain part `([A-Za-z0-9][A-Za-z0-9-]*\.)+[A-Za-z]{2,}` of the zod email
regexp: one or more labels, each followed by a dot, then the TLD. -/
def validDomain (d : List Char) : Bool :=
  match (splitOnChar '.' d).reverse with
  | [] => false
  | tld :: labels =>
    !labels.isEmpty && validTld tld && labels.all validDomainLabel

/-- Models the validation performed by `z.email()` (zod v4 default regexp
`^(?!\.)(?!.*\.\.)([A-Za-z0-9_'+\-.]*)[A-Za-z0-9_+-]@([A-Za-z0-9][A-Za-z0-9-]*\.)+[A-Za-z]{2,}$`)
on each entry of the `attendees` array in `CreateEventsFromTimelineSchema`. -/
def isValidEmail (s : String) : Bool :=
  match splitOnChar '@' s.data with
  | [localPart, domainPart] => validLocalPart localPart && validDomain domainPart
  | _ => false

/-- Per-event check of `CreateEventsFromTimelineSchema`
(`src/frontend/src/shared/repositories/timeline/dto.ts`): `title`,
`description`, `start_date` and `end_date` are strings with `.min(1)`,
`start_time` / `end_time` / `location` are nullable strings (always accepted),
`attendees` is `z.array(z.email())`, `all_day` is a boolean (always accepted).
Note the schema contains no comparison between `start_date` and `end_date`. -/
def eventParseOk (e : CalendarEvent) : Bool :=
  decide (1 ≤ e.title.length) && decide (1 ≤ e.description.length) &&
    decide (1 ≤ e.start_date.length) && decide (1 ≤ e.end_date.length) &&
    e.attendees.all isValidEmail

/-- Batch-level check of `CreateEventsFromTimelineSchema`: the `events` field
is `z.array(...)` of the per-event object schema. -/
def createEventsParseOk (events : List CalendarEvent) : Bool :=
  events.all eventParseOk

/-- Models `SaveApiKeySchema` of
`src/frontend/src/shared/repositories/api-key/dto.ts`:
`provider: z.string().min(2).max(100)`, `api_key: z.string().min(10).max(100)`. -/
def saveApiKeyParseOk (provider api_key : String) : Bool :=
  decide (2 ≤ provider.length) && decide (provider.length ≤ 100) &&
    decide (10 ≤ api_key.length) && decide (api_key.length ≤ 100)

/-- The body of a `POST /api/v1/api-keys/save` request. -/
structure SaveApiKeyRequest where
  provider : String
  api_key : String
  deriving DecidableEq, Repr

/-- Models `useManageAPIKeyForm.onSubmitHandler`
(`src/frontend/src/features/api-key-management/components/manage-api-key-form.tsx`):
`form.handleSubmit` runs the `zodResolver(SaveApiKeySchema)` validation first
and calls the `saveApiKey` mutation only when it passes, so the list of HTTP
requests issued is the single request on success and empty on failure. -/
def onSubmitSaveApiKey (provider api_key : String) : List SaveApiKeyRequest :=
  if saveApiKeyParseOk provider api_key then [⟨provider, api_key⟩] else []

/-- JavaScript `a || b` on strings (used as `err.message || fallback` and
`listId || "@default"` in the source): the left operand when truthy (non-empty),
otherwise the fallback. -/
def jsStringOr (s fallback : String) : String :=
  if s == "" then fallback else s

/-- Shape of an outgoing backend HTTP request, keeping the fields the claims
are about: URL, method, the `Authorization` header if any, and whether the
request is sent with `credentials: "include"`. -/
structure BackendRequest where
  url : String
  method : String
  authHeader : Option String
  credentialsInclude : Bool
  deriving DecidableEq, Repr

/-- Models `apiFetcher` of `src/frontend/src/shared/lib/fetcher.ts`: the token
is read from local storage and, when present, an
`Authorization: Bearer <token>` header is merged into the request options;
when absent the options are left untouched.  `jsonFetcher` delegates to
`apiFetcher`, so every repository module built on them produces this request
shape. -/
def apiFetcherRequest (token : Option String) (url : String) (method : String) :
    BackendRequest :=
  { url := url, method := method,
    authHeader := token.map (fun t => "Bearer " ++ t),
    credentialsInclude := false }

/-- Models the request built by `taskActions.getTaskLists`
(`src/frontend/src/shared/repositories/task/action.ts`): a plain `fetch` of
`/api/v1/tasks/lists` with `credentials: "include"` and no `Authorization`
header, regardless of any stored token (the token argument is unused because
the source never reads it). -/
def getTaskListsRequest (_token : Option String) : BackendRequest :=
  { url := "/api/v1/tasks/lists", method := "GET",
    authHeader := none, credentialsInclude := true }

/-- Models the request built by `taskActions.parseTimelineForTasks`
(`src/frontend/src/shared/repositories/task/action.ts`): a plain `fetch` POST
of `/api/v1/tasks/{listId}/parse` with `credentials: "include"` and no
`Authorization` header, regardless of any stored token. -/
def parseTimelineForTasksRequest (_token : Option String) (listId : String) :
    BackendRequest :=
  { url := "/api/v1/tasks/" ++ listId ++ "/parse", method := "POST",
    authHeader := none, credentialsInclude := true }

/-- Request built by `previewTimeline`
(`src/frontend/src/shared/repositories/timeline/action.ts`) through
`jsonFetcher`. -/
def previewTimelineHttpRequest (token : Option String) : BackendRequest :=
  apiFetcherRequest token "/api/v1/timeline/preview" "POST"

/-- Request built by `createEventsFromTimeline`
(`src/frontend/src/shared/repositories/timeline/action.ts`) through
`jsonFetcher`. -/
def createEventsHttpRequest (token : Option String) : BackendRequest :=
  apiFetcherRequest token "/api/v1/timeline/create-events" "POST"

/-- Request built by `getListApiKeys`
(`src/frontend/src/shared/repositories/api-key/action.ts`) through
`jsonFetcher` (no method option, so the fetcher defaults to GET). -/
def getListApiKeysHttpRequest (token : Option String) : BackendRequest :=
  apiFetcherRequest token "/api/v1/api-keys/list" "GET"

/-- Query keys invalidated by `useSaveApiKeyMutation`
(`src/frontend/src/shared/repositories/api-key/query.ts`):
`qc.invalidateQueries({ queryKey: ["api-keys"] })` on success. -/
def useSaveApiKeyMutation_invalidatedKeys : List (List String) := [["api-keys"]]

/-- Query keys invalidated by `useRemoveApiKeyMutation`
(`src/frontend/src/shared/repositories/api-key/query.ts`). -/
def useRemoveApiKeyMutation_invalidatedKeys : List (List String) := [["api-keys"]]

/-- Query keys invalidated by `useTestApiKeyMutation`
(`src/frontend/src/shared/repositories/api-key/query.ts`). -/
def useTestApiKeyMutation_invalidatedKeys : List (List String) := [["api-keys"]]

/-- Query keys invalidated by `usePreviewTimelineMutation`
(`src/frontend/src/shared/repositories/timeline/query.ts`): the mutation is
declared with a `mutationFn` only and no `onSuccess` invalidation. -/
def usePreviewTimelineMutation_invalidatedKeys : List (List String) := []

/-- Query keys invalidated by `useCreateEventsFromTimelineMutation`
(`src/frontend/src/shared/repositories/timeline/query.ts`): the mutation is
declared with a `mutationFn` only and no `onSuccess` invalidation. -/
def useCreateEventsFromTimelineMutation_invalidatedKeys : List (List String) := []

/-- Response of `POST /api/v1/timeline/preview`
(`PreviewTimelineResponse` in
`src/frontend/src/shared/repositories/timeline/dto.ts`). -/
structure PreviewTimelineResponse where
  processing_time_ms : Nat
  total_events : Nat
  used_model : String
  used_provider : String
  parsed_events : List CalendarEvent
  deriving DecidableEq, Repr

/-- Success toast of `usePreviewTimelineForm.onSubmitHandler`
(`src/frontend/src/features/text-to-calendar/hooks/use-preview-timeline-form.ts`). -/
def previewSuccessToast (res : PreviewTimelineResponse) : String :=
  "Successfully parsed " ++ toString res.total_events ++ " events in " ++
    toString res.processing_time_ms ++ "ms using " ++ res.used_provider ++
    " (" ++ res.used_model ++ ")"

/-- Models one run of the calendar-flow preview:
`usePreviewTimelineForm.onSubmitHandler` combined with
`TextToCalendarCard.onSuccess`
(`src/frontend/src/features/text-to-calendar/components/text-to-calendar-card.tsx`).
On success the card replaces `createdEvents` with the parsed events and a
success toast is shown; on error only an error toast is shown
(`toast.error(err.message || "Failed to preview timeline")`) and the card's
`createdEvents` state is not touched.  Returns the preview list after the run
and the toasts shown. -/
def calendarPreviewRun (prior : List CalendarEvent)
    (result : Except String PreviewTimelineResponse) :
    List CalendarEvent × List String :=
  match result with
  | Except.ok res => (res.parsed_events, [previewSuccessToast res])
  | Except.error msg => (prior, [jsStringOr msg "Failed to preview timeline"])

/-- Body of `POST /api/v1/timeline/create-events` as sent by
`PreviewTimelineCard.onSubmitHandler`: the full previewed event array and the
target calendar id. -/
structure CreateEventsRequest where
  events : List CalendarEvent
  target_calendar_id : String
  deriving DecidableEq, Repr

/-- Observable outcome of one calendar-flow commit run: the HTTP requests
issued, the toasts shown, and the preview list left in `TextToCalendarCard`
afterwards. -/
structure CommitOutcome where
  requests : List CreateEventsRequest
  toasts : List String
  previewAfter : List CalendarEvent
  deriving DecidableEq, Repr

/-- Models `PreviewTimelineCard.onSubmitHandler`
(`src/frontend/src/features/text-to-calendar/components/preview-timeline-card.tsx`)
together with the `onCancel` callback of `TextToCalendarCard`: one mutation
call carrying `{ events, target_calendar_id }`; on success a count-bearing
success toast and `onCancel()` (which clears `createdEvents`); on error an
error toast (`err.message || "Failed to create events"`) and the preview is
left as it was. -/
def calendarCommitRun (events : List CalendarEvent) (targetCalendarId : String)
    (netResult : Except String Unit) : CommitOutcome :=
  { requests := [{ events := events, target_calendar_id := targetCalendarId }],
    toasts :=
      match netResult with
      | Except.ok _ => ["Successfully created " ++ toString events.length ++ " events"]
      | Except.error msg => [jsStringOr msg "Failed to create events"],
    previewAfter :=
      match netResult with
      | Except.ok _ => []
      | Except.error _ => events }

/-- Body of `POST /api/v1/tasks/{listId}/parse` (`ParseTasksRequest` in
`src/frontend/src/shared/types/task.ts`, as assembled by `previewTasks`). -/
structure ParseTasksRequest where
  timeline_text : String
  list_id : String
  provider : Option String
  model : Option String
  deriving DecidableEq, Repr

/-- Response of the task parse endpoint as consumed by `previewTasks`
(fields `tasks` and `provider_used`). -/
structure ParseTasksResponse where
  tasks : List GoogleTask
  provider_used : String
  deriving DecidableEq, Repr

/-- Observable outcome of one task-flow preview run: the `tasks` form value
afterwards, the toasts shown, and the parse requests issued. -/
structure TaskPreviewOutcome where
  tasks : List GoogleTask
  toasts : List String
  requests : List ParseTasksRequest
  deriving DecidableEq, Repr

/-- ASCII whitespace recognised by our model of JavaScript `String.trim()`. -/
def isSpaceChar (c : Char) : Bool :=
  c == ' ' || c == '\t' || c == '\n' || c == '\r'

/-- Models JavaScript `s.trim()` as used by `previewTasks` (leading and
trailing whitespace removed). -/
def jsTrim (s : String) : String :=
  String.mk (((s.data.dropWhile isSpaceChar).reverse.dropWhile isSpaceChar).reverse)

/-- Models `previewTasks` of
`src/frontend/src/features/task-management/hooks/use-create-tasks-from-timeline-form.ts`:
a blank (whitespace-only) timeline aborts with an error toast before anything
else, leaving the prior tasks in place; otherwise the tasks value is cleared,
one parse request is issued (`listId || "@default"`), and the result is
stored: non-empty parsed tasks with a success toast, an empty parse result
with a warning toast and `tasks := []`, or an error with an error toast and
`tasks := []`. -/
def taskPreviewRun (prior : List GoogleTask) (timeline listId : String)
    (provider model : Option String)
    (result : Except String ParseTasksResponse) : TaskPreviewOutcome :=
  if jsTrim timeline == "" then
    { tasks := prior, toasts := ["Please enter timeline text"], requests := [] }
  else
    let req : ParseTasksRequest :=
      { timeline_text := timeline, list_id := jsStringOr listId "@default",
        provider := provider, model := model }
    match result with
    | Except.ok res =>
      if res.tasks.isEmpty then
        { tasks := [], toasts := ["No tasks found in the timeline text"],
          requests := [req] }
      else
        { tasks := res.tasks,
          toasts := ["Parsed " ++ toString res.tasks.length ++ " tasks using " ++
            res.provider_used],
          requests := [req] }
    | Except.error msg =>
      { tasks := [], toasts := [msg], requests := [req] }

/-- Observable outcome of one task-flow commit run (`createTasks`): the tasks
that are POSTed to the backend, the toasts shown, and whether `form.reset()`
ran. -/
structure CreateTasksOutcome where
  requests : List GoogleTask
  toasts : List String
  resetCalled : Bool
  deriving DecidableEq, Repr

/-- Models `createTasks` of
`src/frontend/src/features/task-management/hooks/use-create-tasks-from-timeline-form.ts`:
with no previewed tasks it shows an error toast and stops; with previewed
tasks it shows a count-bearing success toast and resets the form, but its
body issues no HTTP request whatsoever (the source carries the comment "For
now, create tasks one by one using the timeline parsing result" yet performs
no call). -/
def createTasksRun (tasks : List GoogleTask) : CreateTasksOutcome :=
  if tasks.isEmpty then
    { requests := [], toasts := ["No tasks to create"], resetCalled := false }
  else
    { requests := [],
      toasts := ["Created " ++ toString tasks.length ++ " tasks successfully!"],
      resetCalled := true }

/-- Final observable outcome of the `useAuth` mount effect: whether the
session ends authenticated, the token left in local storage, the toasts
shown, and whether the browser was redirected to the root path. -/
structure AuthOutcome where
  isAuthenticated : Bool
  storedTokenAfter : Option String
  toasts : List String
  redirectedToRoot : Bool
  deriving DecidableEq, Repr

/-- The toast text of `onErrorVerifyToken`
(`src/frontend/src/shared/hooks/use-auth.ts`). -/
def sessionExpiredMsg : String := "Session expired. Please login again."

/-- Models the mount effect of `useAuth`
(`src/frontend/src/shared/hooks/use-auth.ts`).  If the URL query string
carries a token it is verified: on success `onSuccessVerifyToken` stores it
and the page is redirected to the root; on failure `onErrorVerifyToken` shows
the session-expired toast, removes the stored token, forces the
unauthenticated state and the callback redirects to the root.  With no URL
token, a token found in local storage is verified the same way through the
same `onErrorVerifyToken` handler, only without the redirect callback.  With
neither token nothing happens. -/
def mountAuthEffect (urlToken storedToken : Option String)
    (verifyOk : String → Bool) : AuthOutcome :=
  match urlToken with
  | some t =>
    if verifyOk t then
      { isAuthenticated := true, storedTokenAfter := some t,
        toasts := [], redirectedToRoot := true }
    else
      { isAuthenticated := false, storedTokenAfter := none,
        toasts := [sessionExpiredMsg], redirectedToRoot := true }
  | none =>
    match storedToken with
    | some t =>
      if verifyOk t then
        { isAuthenticated := true, storedTokenAfter := some t,
          toasts := [], redirectedToRoot := false }
      else
        { isAuthenticated := false, storedTokenAfter := none,
          toasts := [sessionExpiredMsg], redirectedToRoot := false }
    | none =>
      { isAuthenticated := false, storedTokenAfter := none,
        toasts := [], redirectedToRoot := false }

/-- JavaScript object indexing `m[k]` on the per-provider boolean map
`api_keys` of `GetListApiKeysResponse` (`Record<string, boolean>`), yielding
`undefined` (modelled `none`) for an absent provider. -/
def lookupBool (m : List (String × Bool)) (k : String) : Option Bool :=
  (m.find? (fun kv => kv.fst == k)).map (fun kv => kv.snd)

/-- Models the expression
`llmProvider ? apiKeys?.api_keys[llmProvider] : false` of
`PreviewTimelineForm`
(`src/frontend/src/features/text-to-calendar/components/preview-timeline-form.tsx`):
with no (or an empty) chosen provider the value is `false`; otherwise it is
the map entry, which is `undefined` (`none`) while the api-keys query has not
resolved or the provider has no entry. -/
def hasApiKeyJS (apiKeysRes : Option (List (String × Bool)))
    (llmProvider : Option String) : Option Bool :=
  match llmProvider with
  | some p =>
    if p == "" then some false
    else
      match apiKeysRes with
      | some m => lookupBool m p
      | none => none
  | none => some false

/-- JavaScript `!x` on a `boolean | undefined` value: `undefined` and `false`
are falsy. -/
def jsNot : Option Bool → Bool
  | some true => false
  | some false => true
  | none => true

/-- The `disabled` prop of the model `Select` in `PreviewTimelineForm`:
`disabled={!hasApiKey || isLoadingModels}`. -/
def modelSelectDisabled (hasApiKey : Option Bool) (isLoadingModels : Bool) : Bool :=
  jsNot hasApiKey || isLoadingModels

/-- The `enabled` option of `useGetModelsQuery`
(`src/frontend/src/shared/repositories/llm/query.ts`):
`enabled: enabled && !!provider`, called with `hasApiKey ?? false`. -/
def useGetModelsQueryEnabled (hasApiKey : Option Bool) (provider : String) : Bool :=
  hasApiKey.getD false && !(provider == "")

/-- The `usePreviewTimelineForm` form state
(`src/frontend/src/features/text-to-calendar/hooks/use-preview-timeline-form.ts`):
fields of `PreviewTimelineSchema` plus the target calendar id, with `none`
standing for `undefined`. -/
structure PreviewFormState where
  timeline_text : String
  flexible : Bool
  llm_provider : Option String
  llm_model : Option String
  target_calendar_id : String
  deriving DecidableEq, Repr

/-- The `defaultValues` of `usePreviewTimelineForm`: `flexible: false`,
`llm_provider: undefined`, `llm_model: "gemini-2.5-flash"` (the source
carries a TODO to change it to undefined), empty timeline text, target
calendar `"primary"`. -/
def previewFormDefaultValues : PreviewFormState :=
  { timeline_text := "", flexible := false, llm_provider := none,
    llm_model := some "gemini-2.5-flash", target_calendar_id := "primary" }

/-- Models the `onValueChange` handler of the `llm_provider` `Select` in
`PreviewTimelineForm`: it is exactly `field.onChange`, so it writes the new
provider value into the `llm_provider` field and touches nothing else. -/
def onProviderValueChange (s : PreviewFormState) (p : String) : PreviewFormState :=
  { s with llm_provider := some p }


/-- Lexicographic order on character lists, used to compare `YYYY-MM-DD` date
strings; on this fixed-width format it coincides with chronological order. -/
def charListLt : List Char → List Char → Bool
  | [], [] => false
  | [], _ :: _ => true
  | _ :: _, [] => false
  | c :: cs, d :: ds =>
    if c.toNat < d.toNat then true
    else if d.toNat < c.toNat then false
    else charListLt cs ds

/-- Modelled from the spec: the "end_date is earlier than its start_date"
relation on `YYYY-MM-DD` date strings (chronological order, realised as
lexicographic order on the fixed-width format). -/
def dateEarlier (a b : String) : Bool :=
  charListLt a.data b.data

/-- Sample event with `end_date` chronologically (and lexicographically)
earlier than `start_date`, all other fields satisfying
`CreateEventsFromTimelineSchema`. -/
def eventReversedDates : CalendarEvent :=
  { title := "Review period", description := "Second review pass",
    start_date := "2024-01-02", end_date := "2024-01-01",
    start_time := none, end_time := none, attendees := [],
    location := none, all_day := true }

/-- Sample well-formed event. -/
def eventOk : CalendarEvent :=
  { title := "Team meeting", description := "Weekly sync",
    start_date := "2024-01-05", end_date := "2024-01-05",
    start_time := some "10:00", end_time := some "11:00",
    attendees := ["alice@x.com"], location := none, all_day := false }

/-- Sample event identical to `eventOk` except for an empty description. -/
def eventEmptyDescription : CalendarEvent :=
  { eventOk with description := "" }

/-- Sample event identical to `eventOk` except for a malformed attendee
entry. -/
def eventBadAttendee : CalendarEvent :=
  { eventOk with attendees := ["not-an-email"] }

/-- Sample parsed task. -/
def sampleTask : GoogleTask :=
  { task_id := "t1", title := "Call client", notes := none,
    status := "needsAction", due := none, completed := none,
    priority := some "high", parent := none }

/-- Sample form state in which a model has been chosen under the provider
"gemini". -/
def formWithGeminiChosen : PreviewFormState :=
  { previewFormDefaultValues with
      llm_provider := some "gemini", llm_model := some "gemini-2.5-flash" }

/-- Characterisation of `SaveApiKeySchema` in terms of string lengths (helper
for the api-key validation claim). -/
theorem saveApiKeyParseOk_iff (p k : String) :
    saveApiKeyParseOk p k = true ↔
      (2 ≤ p.length ∧ p.length ≤ 100 ∧ 10 ≤ k.length ∧ k.length ≤ 100) := by
  simp [saveApiKeyParseOk]
  tauto

/-- Claim C1, counterexample: a batch containing an event whose `end_date`
("2024-01-01") is earlier than its `start_date` ("2024-01-02") passes
`CreateEventsFromTimelineSchema` validation, and the commit handler issues
the create-events request for it, so client-side commit validation does NOT
reject such a batch. -/
theorem c1_counterexample :
    createEventsParseOk [eventReversedDates] = true ∧
    dateEarlier eventReversedDates.end_date eventReversedDates.start_date = true ∧
    (calendarCommitRun [eventReversedDates] "primary" (Except.ok ())).requests =
      [{ events := [eventReversedDates], target_calendar_id := "primary" }] := by
  refine ⟨by decide, by decide, rfl⟩

/-- Claim C1, amended: commit validation checks each event's fields in
isolation — non-empty `title`, `description`, `start_date` and `end_date`,
and attendee entries passing the email check — and imposes no relation
between `end_date` and `start_date`; any batch of events meeting the
field-wise conditions passes validation, regardless of date order. -/
theorem c1_thm (events : List CalendarEvent)
    (h : ∀ e ∈ events, 1 ≤ e.title.length ∧ 1 ≤ e.description.length ∧
      1 ≤ e.start_date.length ∧ 1 ≤ e.end_date.length ∧
      ∀ a ∈ e.attendees, isValidEmail a = true) :
    createEventsParseOk events = true := by
  simp only [createEventsParseOk, List.all_eq_true, eventParseOk, Bool.and_eq_true,
    decide_eq_true_eq]
  intro e he
  obtain ⟨h1, h2, h3, h4, h5⟩ := h e he
  exact ⟨⟨⟨⟨h1, h2⟩, h3⟩, h4⟩, h5⟩

/-- Claim C1, witness: the amended theorem applied to the concrete
reversed-date event, whose `end_date` is earlier than its `start_date`. -/
theorem c1_witness :
    createEventsParseOk [eventReversedDates] = true ∧
    dateEarlier eventReversedDates.end_date eventReversedDates.start_date = true :=
  ⟨c1_thm [eventReversedDates] (by decide), by decide⟩

/-- Claim C2: evaluation of both commit paths.  The task-flow `createTasks`
run on a non-empty previewed list issues NO backend request at all yet shows
the count-bearing success toast and resets the form — contradicting the
claim that all items are submitted as one batch in both flows — while the
calendar-flow commit does issue the single batch request, clears the preview
and shows the count-bearing toast. -/
theorem c2_thm :
    (createTasksRun [sampleTask]).requests = [] ∧
    (createTasksRun [sampleTask]).toasts = ["Created 1 tasks successfully!"] ∧
    (createTasksRun [sampleTask]).resetCalled = true ∧
    (calendarCommitRun [eventOk] "primary" (Except.ok ())).requests =
      [{ events := [eventOk], target_calendar_id := "primary" }] ∧
    (calendarCommitRun [eventOk] "primary" (Except.ok ())).previewAfter = [] ∧
    (calendarCommitRun [eventOk] "primary" (Except.ok ())).toasts =
      ["Successfully created 1 events"] := by
  refine ⟨rfl, by decide, rfl, rfl, rfl, by decide⟩

/-- Claim C3, counterexample: in the calendar flow a failed preview leaves
the previous preview list (here one event) in place rather than clearing it;
only the error toast is shown. -/
theorem c3_counterexample :
    (calendarPreviewRun [eventOk] (Except.error "Network error")).fst = [eventOk] ∧
    (calendarPreviewRun [eventOk] (Except.error "Network error")).fst ≠ [] ∧
    (calendarPreviewRun [eventOk] (Except.error "Network error")).snd =
      ["Network error"] := by
  refine ⟨rfl, by decide, by decide⟩

/-- Claim C3, amended: on a failed preview both flows surface an error
notification, but only the task flow clears its preview list; the calendar
flow retains the previous preview list unchanged. -/
theorem c3_thm (prior : List CalendarEvent) (priorTasks : List GoogleTask)
    (timeline listId : String) (provider model : Option String) (msg : String)
    (h : jsTrim timeline ≠ "") :
    (calendarPreviewRun prior (Except.error msg)).fst = prior ∧
    (calendarPreviewRun prior (Except.error msg)).snd =
      [jsStringOr msg "Failed to preview timeline"] ∧
    (taskPreviewRun priorTasks timeline listId provider model
      (Except.error msg)).tasks = [] ∧
    (taskPreviewRun priorTasks timeline listId provider model
      (Except.error msg)).toasts = [msg] := by
  have hb : (jsTrim timeline == "") = false := beq_eq_false_iff_ne.mpr h
  refine ⟨rfl, rfl, ?_, ?_⟩ <;> simp [taskPreviewRun, hb]

/-- Claim C3, witness: the amended theorem applied at concrete prior preview
states, a concrete non-blank timeline and a concrete error. -/
theorem c3_witness :
    (calendarPreviewRun [eventOk] (Except.error "boom")).fst = [eventOk] ∧
    (calendarPreviewRun [eventOk] (Except.error "boom")).snd =
      [jsStringOr "boom" "Failed to preview timeline"] ∧
    (taskPreviewRun [sampleTask] "Call client urgent" "@default" none none
      (Except.error "boom")).tasks = [] ∧
    (taskPreviewRun [sampleTask] "Call client urgent" "@default" none none
      (Except.error "boom")).toasts = ["boom"] :=
  c3_thm [eventOk] [sampleTask] "Call client urgent" "@default" none none
    "boom" (by decide)

/-- Claim C4, counterexample: with a token stored ("tok"), the task resource
module's requests carry no `Authorization` header at all, while a request
through the shared fetcher does carry the bearer header — so it is not true
that every backend request attaches the header when a token is present. -/
theorem c4_counterexample :
    (getTaskListsRequest (some "tok")).authHeader = none ∧
    (parseTimelineForTasksRequest (some "tok") "@default").authHeader = none ∧
    (apiFetcherRequest (some "tok") "/api/v1/timeline/preview" "POST").authHeader =
      some "Bearer tok" := by
  refine ⟨rfl, rfl, by decide⟩

/-- Claim C4, amended: every request issued through the shared fetcher
(`apiFetcher`/`jsonFetcher`, used by the timeline, api-key, auth, llm and
calendar modules) attaches `Authorization: Bearer <token>` exactly when a
token is stored; the task resource module bypasses the shared fetcher with
plain `fetch` plus cookies and never attaches the header. -/
theorem c4_thm (t url m : String) (tok : Option String) (listId : String) :
    (apiFetcherRequest (some t) url m).authHeader = some ("Bearer " ++ t) ∧
    (apiFetcherRequest none url m).authHeader = none ∧
    (previewTimelineHttpRequest (some t)).authHeader = some ("Bearer " ++ t) ∧
    (createEventsHttpRequest (some t)).authHeader = some ("Bearer " ++ t) ∧
    (getListApiKeysHttpRequest (some t)).authHeader = some ("Bearer " ++ t) ∧
    (getTaskListsRequest tok).authHeader = none ∧
    (parseTimelineForTasksRequest tok listId).authHeader = none :=
  ⟨rfl, rfl, rfl, rfl, rfl, rfl, rfl⟩

/-- Claim C5, counterexample: the create-events-from-timeline mutation
declares no query invalidation at all (empty invalidation set), and the
task-flow commit issues no request, so no cached list of the committed-to
resource is invalidated on a successful commit. -/
theorem c5_counterexample :
    useCreateEventsFromTimelineMutation_invalidatedKeys = [] ∧
    (createTasksRun [sampleTask]).requests = [] :=
  ⟨rfl, rfl⟩

/-- Claim C5, amended: the timeline mutations (preview and commit) declare no
cache invalidation; only the api-key mutations invalidate a cache, namely the
"api-keys" list. -/
theorem c5_thm :
    useCreateEventsFromTimelineMutation_invalidatedKeys = [] ∧
    usePreviewTimelineMutation_invalidatedKeys = [] ∧
    useSaveApiKeyMutation_invalidatedKeys = [["api-keys"]] ∧
    useRemoveApiKeyMutation_invalidatedKeys = [["api-keys"]] ∧
    useTestApiKeyMutation_invalidatedKeys = [["api-keys"]] :=
  ⟨rfl, rfl, rfl, rfl, rfl⟩

/-- Claim C6: whenever the computed `hasApiKey` value for the chosen provider
is not `true` — the stored api-keys map has `false` for it, has no entry, or
has not loaded — the model `Select` of `PreviewTimelineForm` is disabled,
whatever the provider/model catalog lists and whatever the loading flag. -/
theorem c6_thm (apiKeysRes : Option (List (String × Bool))) (p : String)
    (isLoadingModels : Bool)
    (h : hasApiKeyJS apiKeysRes (some p) ≠ some true) :
    modelSelectDisabled (hasApiKeyJS apiKeysRes (some p)) isLoadingModels = true := by
  unfold modelSelectDisabled
  cases hv : hasApiKeyJS apiKeysRes (some p) with
  | none => simp [jsNot]
  | some b =>
    cases b with
    | true => exact absurd hv h
    | false => simp [jsNot]

/-- Claim C6, witness: the theorem applied to a concrete api-keys map storing
`false` for the chosen provider "openai". -/
theorem c6_witness :
    hasApiKeyJS (some [("openai", false)]) (some "openai") ≠ some true ∧
    modelSelectDisabled (hasApiKeyJS (some [("openai", false)]) (some "openai"))
      false = true :=
  ⟨by decide, c6_thm (some [("openai", false)]) "openai" false (by decide)⟩

/-- Claim C7, counterexample: with the model "gemini-2.5-flash" chosen under
provider "gemini", switching the provider to "openai" leaves the model field
holding "gemini-2.5-flash" — the model is NOT reset to empty/undefined. -/
theorem c7_counterexample :
    (onProviderValueChange formWithGeminiChosen "openai").llm_model =
      some "gemini-2.5-flash" ∧
    (onProviderValueChange formWithGeminiChosen "openai").llm_provider =
      some "openai" ∧
    (onProviderValueChange formWithGeminiChosen "openai").llm_model ≠ none :=
  ⟨rfl, rfl, by decide⟩

/-- Claim C7, amended: changing the provider field updates only the
`llm_provider` field; the `llm_model` field (and every other field) retains
its previous value, so a model chosen under one provider persists after
switching providers. -/
theorem c7_thm (s : PreviewFormState) (p : String) :
    (onProviderValueChange s p).llm_model = s.llm_model ∧
    (onProviderValueChange s p).llm_provider = some p ∧
    (onProviderValueChange s p).timeline_text = s.timeline_text ∧
    (onProviderValueChange s p).flexible = s.flexible ∧
    (onProviderValueChange s p).target_calendar_id = s.target_calendar_id :=
  ⟨rfl, rfl, rfl, rfl, rfl⟩

/-- Claim C8: the save-api-key submit handler issues the network request
exactly when the provider name has between 2 and 100 characters and the api
key between 10 and 100 characters; in every other case it issues nothing
(client-side rejection before any network call). -/
theorem c8_thm (p k : String) :
    (onSubmitSaveApiKey p k = [{ provider := p, api_key := k }] ↔
      (2 ≤ p.length ∧ p.length ≤ 100 ∧ 10 ≤ k.length ∧ k.length ≤ 100)) ∧
    (onSubmitSaveApiKey p k = [] ∨
      onSubmitSaveApiKey p k = [{ provider := p, api_key := k }]) := by
  constructor
  · by_cases hp : saveApiKeyParseOk p k = true
    · simp [onSubmitSaveApiKey, hp, (saveApiKeyParseOk_iff p k).mp hp]
    · have hnb : ¬(2 ≤ p.length ∧ p.length ≤ 100 ∧ 10 ≤ k.length ∧ k.length ≤ 100) :=
        fun hc => hp ((saveApiKeyParseOk_iff p k).mpr hc)
      simp [onSubmitSaveApiKey, hp, hnb]
  · unfold onSubmitSaveApiKey
    split
    · exact Or.inr rfl
    · exact Or.inl rfl

/-- Claim C8, witness: the theorem applied at concrete inputs — an in-bounds
pair passes and issues the request, a 1-character provider and a 5-character
key are each rejected with no request. -/
theorem c8_witness :
    onSubmitSaveApiKey "openai" "abcdefghij" =
      [{ provider := "openai", api_key := "abcdefghij" }] ∧
    onSubmitSaveApiKey "a" "abcdefghij" = [] ∧
    onSubmitSaveApiKey "openai" "short" = [] := by
  refine ⟨(c8_thm "openai" "abcdefghij").1.mpr (by decide), ?_, ?_⟩
  · rcases (c8_thm "a" "abcdefghij").2 with h | h
    · exact h
    · exact absurd ((c8_thm "a" "abcdefghij").1.mp h) (by decide)
  · rcases (c8_thm "openai" "short").2 with h | h
    · exact h
    · exact absurd ((c8_thm "openai" "short").1.mp h) (by decide)

/-- Claim C9, counterexample: a failing token supplied via the URL query
string ("badtoken") also surfaces the "Session expired. Please login again."
notice — the claim that the notice never appears for URL-supplied tokens is
false. -/
theorem c9_counterexample :
    mountAuthEffect (some "badtoken") none (fun _ => false) =
      { isAuthenticated := false, storedTokenAfter := none,
        toasts := ["Session expired. Please login again."],
        redirectedToRoot := true } := rfl

/-- Claim C9, amended: verification failure in either path clears the stored
token and forces the unauthenticated state, and the session-expired notice is
surfaced in BOTH paths — for a previously-stored token and equally for a
URL-supplied token (the URL path additionally redirects to the root). -/
theorem c9_thm (t : String) (storedToken : Option String)
    (verifyOk : String → Bool) (h : verifyOk t = false) :
    mountAuthEffect (some t) storedToken verifyOk =
      { isAuthenticated := false, storedTokenAfter := none,
        toasts := [sessionExpiredMsg], redirectedToRoot := true } ∧
    mountAuthEffect none (some t) verifyOk =
      { isAuthenticated := false, storedTokenAfter := none,
        toasts := [sessionExpiredMsg], redirectedToRoot := false } := by
  constructor <;> simp [mountAuthEffect, h]

/-- Claim C9, witness: the amended theorem applied to a concrete always-failing
verifier and the token "expiredtok". -/
theorem c9_witness :
    mountAuthEffect (some "expiredtok") none (fun _ => false) =
      { isAuthenticated := false, storedTokenAfter := none,
        toasts := [sessionExpiredMsg], redirectedToRoot := true } ∧
    mountAuthEffect none (some "expiredtok") (fun _ => false) =
      { isAuthenticated := false, storedTokenAfter := none,
        toasts := [sessionExpiredMsg], redirectedToRoot := false } :=
  c9_thm "expiredtok" none (fun _ => false) rfl

/-- Claim C10: calendar-flow commit validation requires every event to have a
non-empty description and only well-formed attendee email entries — a batch
containing an event with an empty description, or with an attendee failing
the email check, never passes `CreateEventsFromTimelineSchema`. -/
theorem c10_thm (events : List CalendarEvent) (e : CalendarEvent)
    (hmem : e ∈ events)
    (hbad : e.description = "" ∨ ∃ a ∈ e.attendees, isValidEmail a = false) :
    createEventsParseOk events = false := by
  have he : eventParseOk e = false := by
    rcases hbad with hd | ⟨a, ha, hav⟩
    · simp [eventParseOk, hd]
    · have hall : e.attendees.all isValidEmail = false := by
        rw [List.all_eq_false]
        exact ⟨a, ha, by simp [hav]⟩
      simp [eventParseOk, hall]
  unfold createEventsParseOk
  rw [List.all_eq_false]
  exact ⟨e, hmem, by simp [he]⟩

/-- Claim C10, witness: the theorem applied to a concrete event with an empty
description and to a concrete event with the malformed attendee
"not-an-email"; both batches fail validation. -/
theorem c10_witness :
    createEventsParseOk [eventEmptyDescription] = false ∧
    createEventsParseOk [eventBadAttendee] = false :=
  ⟨c10_thm [eventEmptyDescription] eventEmptyDescription (by simp)
      (Or.inl rfl),
    c10_thm [eventBadAttendee] eventBadAttendee (by simp)
      (Or.inr ⟨"not-an-email", by decide, by decide⟩)⟩
